import Mathlib

/-!
Verification of the query-orchestration pipeline of the `ocean` repository
(`src/lib/providers/llm-controller.ts` and `src/lib/mcp/orchestrator.ts`).

Shallow embedding conventions:
* JavaScript exceptions are modelled with `Except String` (a thrown error is
  `.error msg`); an `async` method that cannot reject is modelled as a total
  function.
* The mutable fields of a class instance are threaded explicitly as state.
* Network I/O is a parameter: the outcome of a `fetch` is passed in as a value
  (`FetchOutcome`), and `Math.random()` as a stream `rand : Nat → ℚ` whose
  values are consumed in source order.
* ISO-8601 date strings are abstracted to rational numbers at month
  granularity (one unit = one month), which is the granularity at which the
  pipeline manipulates dates (`setMonth(getMonth() ± 6)`); `Date.now()` is an
  explicit parameter `now`.
* JavaScript numbers that feed truthiness tests (`profile.lat && …`) or
  `isNaN` checks are modelled by `JNum`, distinguishing a number, `NaN`, and
  `undefined`.  Finite-precision float arithmetic is modelled exactly over ℚ
  (`Number(x.toFixed(k))` becomes decimal rounding over ℚ).
-/

namespace Ocean

/-! ## Provider controller (`src/lib/providers/llm-controller.ts`) -/

/-- One entry of `LLMProviderController.failureLog`:
`{ provider, error, timestamp }`. -/
structure FailureEntry where
  provider : String
  error : String
  timestamp : ℚ
deriving Repr, DecidableEq

/-- Outcome of one `provider.generateResponse(prompt)` call: either the
resolved response content or the message of the thrown/rejected error. -/
inductive ProviderOutcome where
  | ok (content : String)
  | err (message : String)
deriving Repr, DecidableEq

/-- An `LLMProvider` as seen by the controller: its `name` and the behaviour
of its `generateResponse` method on each prompt. -/
structure Provider where
  name : String
  respond : String → ProviderOutcome

/-- Mutable state of an `LLMProviderController`: the ordered provider list
(fixed at construction) and the growing `failureLog` array. -/
structure ControllerState where
  providers : List Provider
  failureLog : List FailureEntry

/-- The fixed graceful-failure literal of `LLMProviderController.generateResponse`. -/
def gracefulFailureMessage : String :=
  "System currently unable to generate result. Please retry."

/-- The provider loop of `LLMProviderController.generateResponse`
(llm-controller.ts lines 277-313): try each provider in order; on success
return its content at once; on failure push `{provider, error, timestamp}`
onto the log and continue; with no provider left return the graceful-failure
literal.  The empty-list base case also covers the early return at lines
271-273. -/
def generateResponseGo (prompt : String) (now : ℚ) :
    List Provider → List FailureEntry → String × List FailureEntry
  | [], log => (gracefulFailureMessage, log)
  | p :: rest, log =>
    match p.respond prompt with
    | .ok content => (content, log)
    | .err msg => generateResponseGo prompt now rest (log ++ [⟨p.name, msg, now⟩])

/-- `LLMProviderController.generateResponse(prompt)`.  The method catches every
provider error, so it is a total function (never throws): its result is the
returned string together with the updated controller state. -/
def generateResponse (st : ControllerState) (prompt : String) (now : ℚ) :
    String × ControllerState :=
  let r := generateResponseGo prompt now st.providers st.failureLog
  (r.1, { st with failureLog := r.2 })

/-- The `recentFailures` field of `LLMProviderController.getSystemHealth()`:
`this.failureLog.slice(-10)`, i.e. the suffix of the log of length at most 10. -/
def getSystemHealthRecentFailures (st : ControllerState) : List FailureEntry :=
  st.failureLog.drop (st.failureLog.length - 10)

/-! ## Response validator (`ResponseValidator`, llm-controller.ts 344-421) -/

/-- Search a character list for the first occurrence of `pat`; on success
return the remainder after the match (JavaScript `RegExp.test` search, for a
literal pattern). -/
def dropAfterFirst (pat : List Char) : List Char → Option (List Char)
  | [] => if pat.isEmpty then some [] else none
  | c :: cs =>
    if pat.isPrefixOf (c :: cs) then some ((c :: cs).drop pat.length)
    else dropAfterFirst pat cs

/-- `lowerHay.includes(pat)` / an unanchored literal regex test, after
lower-casing (the source patterns carry the `/i` flag and the `includes`
checks lower-case first). -/
def containsPat (hay : List Char) (pat : String) : Bool :=
  (dropAfterFirst pat.toList hay).isSome

/-- The `obviousTemplates` regex list of `ResponseValidator.validateResponse`
(lines 371-377), as (anchored?, literal) pairs: `^here's a fun fact about`,
`^did you know that the ocean`, `this is a placeholder`, `lorem ipsum`,
`sample data shows`, all case-insensitive. -/
def obviousTemplates : List (Bool × String) :=
  [(true, "here\x27s a fun fact about"),
   (true, "did you know that the ocean"),
   (false, "this is a placeholder"),
   (false, "lorem ipsum"),
   (false, "sample data shows")]

/-- The `obviousHardcoded` substring list (lines 388-392). -/
def obviousHardcoded : List String :=
  ["this is sample data", "placeholder response", "mock analysis"]

/-- `ResponseValidator.validateResponse(response, hasRealData)`
(llm-controller.ts lines 364-402). -/
def validateResponse (response : String) (hasRealData : Bool) : Bool :=
  if !hasRealData then false
  else
    let s := response.toLower.toList
    if obviousTemplates.any (fun ap =>
        if ap.1 then ap.2.toList.isPrefixOf s else containsPat s ap.2) then false
    else if obviousHardcoded.any (fun h => containsPat s h) then false
    else true

/-! ## Query classification (`MCPOrchestrator.classifyQuery`, orchestrator.ts 577-658) -/

/-- `QueryType` enum of orchestrator.ts. -/
inductive QueryType where
  | knowledge
  | data
  | hybrid
deriving Repr, DecidableEq

/-- `UserMode` enum of orchestrator.ts. -/
inductive UserMode where
  | explorer
  | power
deriving Repr, DecidableEq

/-- One token of a source regex of the form `lit(.*lit)*` (every pattern in
`classifyQuery` has this shape): a literal, or `\d{4}`. -/
inductive Tok where
  | lit (s : String)
  | fourDigits
deriving Repr, DecidableEq

/-- Search for four consecutive digit characters; on success return the
remainder after them (`\d{4}` search). -/
def dropAfterFourDigits : List Char → Option (List Char)
  | a :: b :: c :: d :: rest =>
    if a.isDigit && b.isDigit && c.isDigit && d.isDigit then some rest
    else dropAfterFourDigits (b :: c :: d :: rest)
  | _ => none

/-- Test a `lit(.*lit)*` regex against a (lower-cased) character list:
each token must occur, in order, each after the previous one.  (The source
`.` excludes newlines; queries are single-line chat inputs, so the gap is
modelled as unrestricted.) -/
def seqTest : List Tok → List Char → Bool
  | [], _ => true
  | .lit p :: ts, s =>
    match dropAfterFirst p.toList s with
    | some rest => seqTest ts rest
    | none => false
  | .fourDigits :: ts, s =>
    match dropAfterFourDigits s with
    | some rest => seqTest ts rest
    | none => false

/-- `knowledgePatterns` of `classifyQuery` (orchestrator.ts 581-593). -/
def knowledgePatterns : List (List Tok) :=
  [[.lit "how do", .lit "affect"],
   [.lit "what causes"],
   [.lit "why do", .lit "occur"],
   [.lit "explain", .lit "process"],
   [.lit "what is", .lit "effect"],
   [.lit "what is"],
   [.lit "relationship between"],
   [.lit "impact", .lit "on"],
   [.lit "role", .lit "in"],
   [.lit "mechanism", .lit "behind"],
   [.lit "factors", .lit "influence"]]

/-- `dataPatterns` of `classifyQuery` (orchestrator.ts 596-605). -/
def dataPatterns : List (List Tok) :=
  [[.lit "temperature", .lit "in", .fourDigits],
   [.lit "salinity", .lit "near", .fourDigits],
   [.lit "sst", .lit "data"],
   [.lit "measurements", .lit "from"],
   [.lit "profiles", .lit "in"],
   [.lit "show", .lit "data"],
   [.lit "values", .lit "for"],
   [.lit "readings", .lit "between"]]

/-- Result shape of `classifyQuery`:
`{ type, requiresData, conceptualTopic? }`. -/
structure Classification where
  type : QueryType
  requiresData : Bool
  conceptualTopic : Option String
deriving Repr, DecidableEq

/-- Topic refinement for knowledge-driven queries (orchestrator.ts 610-615):
a cascade of `if (lowerQuery.includes(…)) topic = …` overwrites, so the last
matching keyword wins. -/
def knowledgeTopic (lowerQuery : List Char) : String :=
  let topic := "ocean science"
  let topic := if containsPat lowerQuery "weather" then "ocean-atmosphere interactions" else topic
  let topic := if containsPat lowerQuery "climate" then "ocean-climate interactions" else topic
  let topic := if containsPat lowerQuery "current" then "ocean circulation" else topic
  let topic := if containsPat lowerQuery "temperature" then "ocean temperature processes" else topic
  let topic := if containsPat lowerQuery "salinity" then "ocean salinity processes" else topic
  topic

/-- The ocean-region alternation `/pacific|atlantic|indian|equator|latitude|longitude/i`
(orchestrator.ts 636). -/
def regionWords : List String :=
  ["pacific", "atlantic", "indian", "equator", "latitude", "longitude"]

/-- The hybrid alternation `/patterns|trends|changes|variations/i`
(orchestrator.ts 644). -/
def hybridWords : List String :=
  ["patterns", "trends", "changes", "variations"]

/-- `MCPOrchestrator.classifyQuery(query)` (orchestrator.ts 577-658): ordered
pattern cascade — knowledge patterns, then data patterns, then the
four-digit-year + named-region heuristic, then the trends/patterns hybrid
catch-all, defaulting to knowledge. All regexes carry `/i`, so matching is on
the lower-cased query. -/
def classifyQuery (query : String) : Classification :=
  let lowerQuery := query.toLower.toList
  if knowledgePatterns.any (fun p => seqTest p lowerQuery) then
    { type := .knowledge, requiresData := false,
      conceptualTopic := some (knowledgeTopic lowerQuery) }
  else if dataPatterns.any (fun p => seqTest p lowerQuery) then
    { type := .data, requiresData := true, conceptualTopic := none }
  else if (dropAfterFourDigits lowerQuery).isSome
      && regionWords.any (fun w => containsPat lowerQuery w) then
    { type := .data, requiresData := true, conceptualTopic := none }
  else if hybridWords.any (fun w => containsPat lowerQuery w) then
    { type := .hybrid, requiresData := true,
      conceptualTopic := some "ocean patterns and trends" }
  else
    { type := .knowledge, requiresData := false,
      conceptualTopic := some "ocean science" }

/-- `classifyQuery` as it sits inside the stateful `MCPOrchestrator` instance
(whose mutable state is the LLM controller's): the method reads only its
`query` argument and writes nothing, so it returns the classification and the
state unchanged. -/
def classifyQueryS (st : ControllerState) (query : String) :
    Classification × ControllerState :=
  (classifyQuery query, st)

/-! ## Data model of the orchestrator (orchestrator.ts 33-128)

Dates are abstracted to ℚ at month granularity (see the header comment). -/

/-- `region.bounds` of an `IntentResult`. -/
structure Bounds where
  north : ℚ
  south : ℚ
  east : ℚ
  west : ℚ
deriving Repr, DecidableEq

/-- `region` of an `IntentResult`: bounds plus an optional name. -/
structure Region where
  bounds : Bounds
  name : Option String
deriving Repr, DecidableEq

/-- `timeRange` of an `IntentResult`; `startM`/`endM` embed the source's
`start`/`end` ISO date strings (`end` is a Lean keyword). -/
structure TimeRange where
  startM : ℚ
  endM : ℚ
  explicit : Bool
  defaulted : Bool
deriving Repr, DecidableEq

/-- `IntentResult` (orchestrator.ts 33-57). -/
structure IntentResult where
  queryType : QueryType
  mode : UserMode
  requiresData : Bool
  conceptualTopic : Option String
  region : Option Region
  timeRange : Option TimeRange
  parameters : List String
  confidence : ℚ
deriving Repr, DecidableEq

/-- A loosely-typed numeric field of a raw JSON value: a number, `NaN`, or
`undefined` (an absent field / absent `measurements[0]`). -/
inductive JNum where
  | num (q : ℚ)
  | nan
  | undef
deriving Repr, DecidableEq

/-- JavaScript truthiness of a `JNum`: `0`, `NaN` and `undefined` are falsy. -/
def jTruthy : JNum → Bool
  | .num q => q != 0
  | .nan => false
  | .undef => false

/-- JavaScript global `isNaN` on a `JNum` (`isNaN(undefined)` is `true`). -/
def jIsNaN : JNum → Bool
  | .num _ => false
  | .nan => true
  | .undef => true

/-- Is the value `undefined`? (`x !== undefined` is its negation.) -/
def jIsUndef : JNum → Bool
  | .undef => true
  | _ => false

/-- JavaScript `x >= c` on a `JNum` (comparisons with `NaN`/`undefined` are false). -/
def jGe (x : JNum) (c : ℚ) : Bool :=
  match x with
  | .num q => c ≤ q
  | _ => false

/-- JavaScript `x <= c` on a `JNum`. -/
def jLe (x : JNum) (c : ℚ) : Bool :=
  match x with
  | .num q => q ≤ c
  | _ => false

/-- JavaScript `x || 0` on a `JNum`. -/
def jOrZero (x : JNum) : JNum :=
  if jTruthy x then x else .num 0

/-- Extract the numeric value of a `JNum`, `none` on `NaN`/`undefined`. -/
def jToOpt : JNum → Option ℚ
  | .num q => some q
  | _ => none

/-- A raw Argovis profile as the code accesses it: `_id`, `lat`, `lon`,
`date`, and the `measurements[0]` fields `pres`/`temp`/`psal` (each possibly
absent or `NaN`). -/
structure RawProfile where
  id : String
  lat : JNum
  lon : JNum
  pres : JNum
  temp : JNum
  psal : JNum
  date : ℚ
deriving Repr, DecidableEq

/-- The object produced by the `.map` at orchestrator.ts 843-852, before the
validity filter (fields still loosely typed). -/
structure MappedProfile where
  id : String
  lat : JNum
  lon : JNum
  depth : JNum
  temperature : JNum
  salinity : JNum
  pressure : JNum
  date : ℚ
deriving Repr, DecidableEq

/-- The `.map` step of `retrieveData` (orchestrator.ts 843-852):
`depth := measurements[0]?.pres || 0` (pressure as depth proxy, defaulted to 0). -/
def mapRawProfile (p : RawProfile) : MappedProfile :=
  { id := p.id
    lat := p.lat
    lon := p.lon
    depth := jOrZero p.pres
    temperature := p.temp
    salinity := p.psal
    pressure := p.pres
    date := p.date }

/-- The `.filter` predicate of `retrieveData` (orchestrator.ts 852-859):
`profile.lat && profile.lon && profile.depth !== undefined && !isNaN(lat) &&
!isNaN(lon) && !isNaN(depth) && -90 ≤ lat ≤ 90 && -180 ≤ lon ≤ 180 && depth ≥ 0`. -/
def isValidProfile (p : MappedProfile) : Bool :=
  jTruthy p.lat && jTruthy p.lon && !jIsUndef p.depth &&
  !jIsNaN p.lat && !jIsNaN p.lon && !jIsNaN p.depth &&
  jGe p.lat (-90) && jLe p.lat 90 &&
  jGe p.lon (-180) && jLe p.lon 180 &&
  jGe p.depth 0

/-- An ocean profile record of a `DataResult` (orchestrator.ts 61-70).
`lat`/`lon` are `Option` because the runtime checks
`p.lat !== undefined && p.lon !== undefined` even though the static type is
`number`. -/
structure Profile where
  id : String
  lat : Option ℚ
  lon : Option ℚ
  depth : ℚ
  temperature : Option ℚ
  salinity : Option ℚ
  pressure : Option ℚ
  date : ℚ
deriving Repr, DecidableEq

/-- Convert a mapped-and-filtered profile into the `DataResult` record shape
(a surviving record always has numeric `lat`/`lon`/`depth`). -/
def toProfile (p : MappedProfile) : Profile :=
  { id := p.id
    lat := jToOpt p.lat
    lon := jToOpt p.lon
    depth := (jToOpt p.depth).getD 0
    temperature := jToOpt p.temperature
    salinity := jToOpt p.salinity
    pressure := jToOpt p.pressure
    date := p.date }

/-- `transformedProfiles` of `retrieveData` (orchestrator.ts 843-859):
map, then filter, then (conversion into the typed record shape). -/
def transformProfiles (raws : List RawProfile) : List Profile :=
  (((raws.map mapRawProfile).filter isValidProfile).map toProfile)

/-- `metadata` of a `DataResult` (orchestrator.ts 71-79), with `dateRange`
flattened into its `start`/`end` components. -/
structure DataMetadata where
  totalProfiles : ℕ
  dateRangeStart : ℚ
  dateRangeEnd : ℚ
  region : String
  source : String
deriving Repr, DecidableEq

/-- `DataResult` (orchestrator.ts 60-83). -/
structure DataResult where
  profiles : List Profile
  metadata : DataMetadata
  isEmpty : Bool
deriving Repr, DecidableEq

/-! ## Failure handler (`FailureHandler`, orchestrator.ts 1289-1478) -/

/-- JavaScript `name || alt` for an optional string field (an absent name and
the empty string are both falsy). -/
def jsOrString (name : Option String) (alt : String) : String :=
  match name with
  | some s => if s = "" then alt else s
  | none => alt

/-- `Number(x.toFixed(k))`: decimal rounding to `k` fraction digits, modelled
exactly over ℚ. -/
def roundDec (k : ℕ) (q : ℚ) : ℚ :=
  (round (q * (10 : ℚ) ^ k) : ℚ) / (10 : ℚ) ^ k

/-- `FailureHandler.expandTemporal(intent, monthsToExpand)` (orchestrator.ts
1323-1341): move the start of the time range `monthsToExpand` months earlier
and the end the same amount later (`setMonth(getMonth() ∓ m)`); an intent
without a time range is returned unchanged. -/
def expandTemporal (intent : IntentResult) (monthsToExpand : ℚ) : IntentResult :=
  match intent.timeRange with
  | none => intent
  | some tr =>
    { intent with
      timeRange := some
        { startM := tr.startM - monthsToExpand
          endM := tr.endM + monthsToExpand
          explicit := tr.explicit
          defaulted := tr.defaulted } }

/-- `FailureHandler.expandSpatial(intent, degreesToExpand)` (orchestrator.ts
1343-1360): widen each side of the bounding box by `degreesToExpand` degrees,
clamped to `[-90, 90]` / `[-180, 180]`; an intent without a region is
returned unchanged. -/
def expandSpatial (intent : IntentResult) (degreesToExpand : ℚ) : IntentResult :=
  match intent.region with
  | none => intent
  | some r =>
    { intent with
      region := some
        { r with
          bounds :=
            { north := min 90 (r.bounds.north + degreesToExpand)
              south := max (-90) (r.bounds.south - degreesToExpand)
              east := min 180 (r.bounds.east + degreesToExpand)
              west := max (-180) (r.bounds.west - degreesToExpand) } } }

/-- Loop body shared by `generateFallbackData` (50 points, 0-2000 m,
`fallback_i` ids) and `generateFallbackDataForRegion` (30 points, 0-1500 m,
`timeout_fallback_i` ids); the two source methods duplicate it verbatim.
`rand` is the `Math.random()` stream; iteration `i` consumes values
`6*i .. 6*i+5` in source order (lat, lon, depth, temperature noise, salinity
base, date). -/
def genFallbackProfile (bounds : Bounds) (trStart trEnd : ℚ) (maxDepth : ℚ)
    (idPrefix : String) (rand : ℕ → ℚ) (i : ℕ) : Profile :=
  let lat := bounds.south + rand (6 * i) * (bounds.north - bounds.south)
  let lon := bounds.west + rand (6 * i + 1) * (bounds.east - bounds.west)
  let depth := rand (6 * i + 2) * maxDepth
  let baseTemp := 25 - (lat - 20) * (1 / 2)
  let temp := baseTemp - depth / 100 + (rand (6 * i + 3) - 1 / 2) * 2
  let baseSalinity := 35 + (rand (6 * i + 4) - 1 / 2) * 2
  let salinity := baseSalinity + depth / 1000 * (1 / 2)
  let pressure := depth * (1 / 10)
  let date := trStart + rand (6 * i + 5) * (trEnd - trStart)
  { id := idPrefix ++ toString i
    lat := some (roundDec 4 lat)
    lon := some (roundDec 4 lon)
    depth := roundDec 1 depth
    temperature := some (roundDec 2 temp)
    salinity := some (roundDec 2 salinity)
    pressure := some (roundDec 1 pressure)
    date := date }

/-- Default region of `generateFallbackData` (orchestrator.ts 1369-1372). -/
def fallbackDefaultRegion : Region :=
  { bounds := { north := 45, south := 35, east := -60, west := -80 }
    name := some "North Atlantic" }

/-- Default time range of `generateFallbackData` (orchestrator.ts 1375-1380):
2023-01-01 .. 2023-12-31, i.e. months 24276 .. 24287 at month granularity. -/
def fallbackDefaultTimeRange : TimeRange :=
  { startM := 24276, endM := 24287, explicit := false, defaulted := true }

/-- `FailureHandler.generateFallbackData(intent)` (orchestrator.ts 1362-1431):
synthesize 50 plausible profiles inside the intent's region/time (defaulting
to the North Atlantic and 2023), tagged `source = "Fallback (MCP unavailable)"`
and `isEmpty = false`. -/
def generateFallbackData (intent : IntentResult) (rand : ℕ → ℚ) : DataResult :=
  let region := intent.region.getD fallbackDefaultRegion
  let timeRange := intent.timeRange.getD fallbackDefaultTimeRange
  let profiles := (List.range 50).map
    (genFallbackProfile region.bounds timeRange.startM timeRange.endM 2000 "fallback_" rand)
  { profiles := profiles
    metadata :=
      { totalProfiles := profiles.length
        dateRangeStart := timeRange.startM
        dateRangeEnd := timeRange.endM
        region := jsOrString region.name "North Atlantic"
        source := "Fallback (MCP unavailable)" }
    isEmpty := false }

/-- `FailureHandler.generateFallbackDataForRegion(region, timeRange)`
(orchestrator.ts 1433-1478): synthesize 30 profiles for the given region and
time range, tagged `source = "Fallback (API timeout)"`.  The method
dereferences `region.name`, `region.bounds` and `timeRange.start` without a
guard, so when either argument is `undefined` it throws a `TypeError`
(modelled as `.error`). -/
def generateFallbackDataForRegion (region : Option Region)
    (timeRange : Option TimeRange) (rand : ℕ → ℚ) : Except String DataResult :=
  match region with
  | none => .error "TypeError: cannot read properties of undefined (region)"
  | some r =>
    match timeRange with
    | none => .error "TypeError: cannot read properties of undefined (timeRange)"
    | some tr =>
      let profiles := (List.range 30).map
        (genFallbackProfile r.bounds tr.startM tr.endM 1500 "timeout_fallback_" rand)
      .ok
        { profiles := profiles
          metadata :=
            { totalProfiles := profiles.length
              dateRangeStart := tr.startM
              dateRangeEnd := tr.endM
              region := jsOrString r.name "Unknown"
              source := "Fallback (API timeout)" }
          isEmpty := false }

/-- `FailureHandler.handleEmptyData(originalIntent, retrieveDataFn)`
(orchestrator.ts 1290-1321): temporal expansion (±6 months) first, then
spatial expansion (±10 degrees), each returning the first non-empty result;
otherwise `generateFallbackData(originalIntent)`. -/
def handleEmptyData (originalIntent : IntentResult)
    (retrieveDataFn : IntentResult → DataResult) (rand : ℕ → ℚ) : DataResult :=
  let r1 := retrieveDataFn (expandTemporal originalIntent 6)
  if !r1.isEmpty then r1
  else
    let r2 := retrieveDataFn (expandSpatial originalIntent 10)
    if !r2.isEmpty then r2
    else generateFallbackData originalIntent rand

/-- `handleEmptyData` instrumented with the list of intents passed to
`retrieveDataFn`, in invocation order (to state the temporal-before-spatial
call order). -/
def handleEmptyDataWithLog (originalIntent : IntentResult)
    (retrieveDataFn : IntentResult → DataResult) (rand : ℕ → ℚ) :
    DataResult × List IntentResult :=
  let t := expandTemporal originalIntent 6
  let r1 := retrieveDataFn t
  if !r1.isEmpty then (r1, [t])
  else
    let s := expandSpatial originalIntent 10
    let r2 := retrieveDataFn s
    if !r2.isEmpty then (r2, [t, s])
    else (generateFallbackData originalIntent rand, [t, s])

/-! ## Data retrieval (`MCPOrchestrator.retrieveData`, orchestrator.ts 766-892) -/

/-- Outcome of the single `fetch` against the Argovis API, as observed by the
`try`/`catch` of `retrieveData`: a parsed JSON array of raw profiles, a
non-2xx response (the code throws and the generic catch returns the
`Argovis (failed)` empty result), an `AbortError` fired by the timeout, or
another network error. -/
inductive FetchOutcome where
  | ok (profiles : List RawProfile)
  | httpError (status : ℕ) (statusText : String)
  | timeout
  | networkError (msg : String)

/-- The default time range of `retrieveData` (orchestrator.ts 784-787):
one year (12 months) ago up to today (`now` is the abstracted `Date.now()`). -/
def retrieveDefaultTimeRange (now : ℚ) : TimeRange :=
  { startM := now - 12, endM := now, explicit := false, defaulted := false }

/-- The default region of `retrieveData` (orchestrator.ts 800-803): the
global ocean. -/
def retrieveDefaultRegion : Region :=
  { bounds := { north := 90, south := -90, east := 180, west := -180 }
    name := some "Global Ocean" }

/-- The empty `source = "skipped"` result returned for pure-knowledge intents
(orchestrator.ts 768-779); the source's empty `dateRange` strings are the
zero time value here. -/
def skippedResult : DataResult :=
  { profiles := []
    metadata :=
      { totalProfiles := 0, dateRangeStart := 0, dateRangeEnd := 0
        region := "none", source := "skipped" }
    isEmpty := true }

/-- Does `retrieveData` reach the `fetch` call?  False exactly on the
early-return branch `!intent.region && !intent.timeRange`. -/
def retrievePerformsFetch (intent : IntentResult) : Bool :=
  match intent.region, intent.timeRange with
  | none, none => false
  | _, _ => true

/-- The region label `effectiveRegion.name || BOUNDS_STRING`
(orchestrator.ts 866). -/
def effectiveRegionLabel (r : Region) : String :=
  jsOrString r.name (toString r.bounds.north ++ "°N, " ++ toString r.bounds.west ++ "°W")

/-- `MCPOrchestrator.retrieveData(intent)` (orchestrator.ts 766-892).
* No region and no time range: return the `skipped` empty result with no
  network call.
* Otherwise fetch with the effective (given-or-default) time range and
  region.  On a 2xx response, map and filter the raw profiles
  (`transformProfiles`) — `isEmpty` iff no record survives.  On an
  `AbortError` (timeout), delegate to
  `generateFallbackDataForRegion(region, timeRange)` — note: the *original*
  `intent.region` / `intent.timeRange`, not the effective defaults, so this
  path throws when either is absent.  On any other error, return an empty
  `Argovis (failed)` result. -/
def retrieveData (intent : IntentResult) (outcome : FetchOutcome)
    (rand : ℕ → ℚ) (now : ℚ) : Except String DataResult :=
  match intent.region, intent.timeRange with
  | none, none => .ok skippedResult
  | _, _ =>
    let effectiveTimeRange := intent.timeRange.getD (retrieveDefaultTimeRange now)
    let effectiveRegion := intent.region.getD retrieveDefaultRegion
    match outcome with
    | .ok raws =>
      let transformedProfiles := transformProfiles raws
      .ok
        { profiles := transformedProfiles
          metadata :=
            { totalProfiles := transformedProfiles.length
              dateRangeStart := effectiveTimeRange.startM
              dateRangeEnd := effectiveTimeRange.endM
              region := effectiveRegionLabel effectiveRegion
              source := "Argovis" }
          isEmpty := transformedProfiles.length == 0 }
    | .timeout => generateFallbackDataForRegion intent.region intent.timeRange rand
    | .httpError _ _ | .networkError _ =>
      .ok
        { profiles := []
          metadata :=
            { totalProfiles := 0
              dateRangeStart := effectiveTimeRange.startM
              dateRangeEnd := effectiveTimeRange.endM
              region := jsOrString effectiveRegion.name "Unknown"
              source := "Argovis (failed)" }
          isEmpty := true }

/-! ## Visualization type selection
(`MCPOrchestrator.determineVisualizationType`, orchestrator.ts 1223-1236) -/

/-- The return type union `'map' | 'chart' | 'plot3d'`. -/
inductive VizType where
  | map
  | chart
  | plot3d
deriving Repr, DecidableEq

/-- `MCPOrchestrator.determineVisualizationType(data, intent)`
(orchestrator.ts 1223-1236): power mode with more than 10 profiles gives 3D;
else a map when some profile has `lat` and `lon` defined; else a chart. -/
def determineVisualizationType (data : DataResult) (intent : IntentResult) : VizType :=
  if intent.mode == UserMode.power && data.profiles.length > 10 then .plot3d
  else if data.profiles.any (fun p => p.lat.isSome && p.lon.isSome) then .map
  else .chart

/-! ## Concrete fixtures (used by witnesses and counterexamples) -/

/-- A provider whose `generateResponse` always rejects. -/
def provA : Provider := ⟨"groq", fun _ => .err "boom"⟩

/-- A provider whose `generateResponse` always resolves with `"hello"`. -/
def provB : Provider := ⟨"huggingface", fun _ => .ok "hello"⟩

/-- A second always-failing provider. -/
def provC : Provider := ⟨"huggingface", fun _ => .err "down"⟩

/-- A controller with a single failing provider and an empty log. -/
def stAllFail : ControllerState := ⟨[provA], []⟩

/-- A controller with providers `[A (fails), B (succeeds)]` and an empty log. -/
def stAB : ControllerState := ⟨[provA, provB], []⟩

/-- A controller with two failing providers (the realistic Groq + HuggingFace
configuration with both backends down) and an empty log. -/
def stBothFail : ControllerState := ⟨[provA, provC], []⟩

/-- `n` successive `generateResponse` calls threaded through the controller
state. -/
def callN : ℕ → ControllerState → ControllerState
  | 0, st => st
  | n + 1, st => callN n (generateResponse st "q" 0).2

/-- A concrete named region (the classifier's North Atlantic box). -/
def reg0 : Region := ⟨⟨40, 30, -60, -70⟩, some "North Atlantic"⟩

/-- A concrete explicit time range (months 600..612). -/
def tr0 : TimeRange := ⟨600, 612, true, false⟩

/-- A data-driven intent with both a region and a time range. -/
def intent0 : IntentResult :=
  ⟨.data, .explorer, true, none, some reg0, some tr0, ["temperature"], 9 / 10⟩

/-- A pure-knowledge intent: no region, no time range. -/
def intentKnowledgeOnly : IntentResult :=
  ⟨.knowledge, .explorer, false, some "ocean science", none, none, [], 1⟩

/-- An intent with a time range but no region. -/
def intentTimeOnly : IntentResult :=
  ⟨.data, .explorer, true, none, none, some tr0, [], 1 / 2⟩

/-- `intent0` in power mode. -/
def intentPower : IntentResult := { intent0 with mode := .power }

/-- A concrete `Math.random()` stream. -/
def rand0 : ℕ → ℚ := fun _ => 1 / 2

/-- A retrieval function that always returns an empty result. -/
def emptyFn : IntentResult → DataResult := fun _ => skippedResult

/-- A raw profile with valid coordinates and pressure. -/
def rawGood : RawProfile := ⟨"r1", .num 10, .num 20, .num 5, .num 18, .num 35, 100⟩

/-- A raw profile with an out-of-range latitude. -/
def rawBadLat : RawProfile := ⟨"r2", .num 100, .num 20, .num 5, .num 18, .num 35, 100⟩

/-- A raw profile with valid coordinates but no measurement record at all
(missing `measurements[0].pres`, hence missing depth). -/
def rawNoPres : RawProfile := ⟨"r3", .num 10, .num 20, .undef, .undef, .undef, 0⟩

/-- A raw profile with a negative pressure (out-of-range depth). -/
def rawNegPres : RawProfile := ⟨"r4", .num 10, .num 20, .num (-5), .undef, .undef, 0⟩

/-- The record `transformProfiles [rawGood]` produces. -/
def pGood : Profile := ⟨"r1", some 10, some 20, 5, some 18, some 35, some 5, 100⟩

/-- A profile with defined `lat`/`lon`. -/
def p0 : Profile := ⟨"f", some 10, some 20, 5, none, none, none, 0⟩

/-- A non-empty `DataResult` with 15 profiles, all with defined `lat`/`lon`. -/
def data15 : DataResult :=
  ⟨(List.range 15).map (fun i => { p0 with id := toString i }),
   ⟨15, 0, 0, "North Atlantic", "Argovis"⟩, false⟩

/-! ## Helper lemmas -/

/-- If every provider of the list fails on `prompt`, the provider loop returns
the graceful-failure literal. -/
theorem generateResponseGo_allFail (prompt : String) (now : ℚ) :
    ∀ (ps : List Provider) (log : List FailureEntry),
      (∀ p ∈ ps, ∃ m, p.respond prompt = .err m) →
      (generateResponseGo prompt now ps log).1 = gracefulFailureMessage := by
  intro ps
  induction ps with
  | nil => intro log _; rfl
  | cons p rest ih =>
    intro log h
    obtain ⟨m, hm⟩ := h p (List.mem_cons_self _ _)
    simp only [generateResponseGo, hm]
    exact ih _ (fun q hq => h q (List.mem_cons_of_mem _ hq))

/-- The provider loop only ever appends to the failure log. -/
theorem generateResponseGo_log_extends (prompt : String) (now : ℚ) :
    ∀ (ps : List Provider) (log : List FailureEntry),
      ∃ newEntries, (generateResponseGo prompt now ps log).2 = log ++ newEntries := by
  intro ps
  induction ps with
  | nil => intro log; exact ⟨[], by simp [generateResponseGo]⟩
  | cons p rest ih =>
    intro log
    cases hr : p.respond prompt with
    | ok c => exact ⟨[], by simp [generateResponseGo, hr]⟩
    | err m =>
      obtain ⟨ne, hne⟩ := ih (log ++ [⟨p.name, m, now⟩])
      exact ⟨⟨p.name, m, now⟩ :: ne, by simp [generateResponseGo, hr, hne]⟩

/-! ## Claim theorems -/

/-- C1: for every prompt, if the controller's provider list is empty or every
provider in the list fails (rejects), `LLMProviderController.generateResponse`
returns exactly the literal string
`"System currently unable to generate result. Please retry."`.  It never
throws: provider errors are values here, and `generateResponse` is a total
function into `String × ControllerState`, the faithful image of the source
method whose `try`/`catch` swallows every provider exception. -/
theorem generateResponse_allFail_graceful (st : ControllerState) (prompt : String)
    (now : ℚ)
    (h : st.providers = [] ∨ ∀ p ∈ st.providers, ∃ m, p.respond prompt = .err m) :
    (generateResponse st prompt now).1 = gracefulFailureMessage := by
  have h' : ∀ p ∈ st.providers, ∃ m, p.respond prompt = .err m := by
    rcases h with h | h
    · intro p hp
      rw [h] at hp
      exact absurd hp (List.not_mem_nil p)
    · exact h
  exact generateResponseGo_allFail prompt now st.providers st.failureLog h'

/-- Witness for C1: a controller with one always-failing provider returns the
graceful-failure literal. -/
theorem generateResponse_allFail_graceful_witness :
    (generateResponse stAllFail "q" 0).1 = gracefulFailureMessage := by
  apply generateResponse_allFail_graceful stAllFail "q" 0
  refine Or.inr ?_
  intro p hp
  have hp' : p = provA := by simpa [stAllFail] using hp
  subst hp'
  exact ⟨"boom", rfl⟩

/-- C7: for a controller whose ordered provider list starts `[A, B, …]` where
`A` fails with message `m` and `B` succeeds with content `c`,
`generateResponse` returns `c` and the failure log gains exactly one entry,
naming `A`.  The providers after `B` are an arbitrary `rest`, and neither the
result nor the log depends on them: success short-circuits the chain. -/
theorem generateResponse_failover (st : ControllerState) (prompt : String) (now : ℚ)
    (A B : Provider) (rest : List Provider) (m c : String)
    (hps : st.providers = A :: B :: rest)
    (hA : A.respond prompt = .err m) (hB : B.respond prompt = .ok c) :
    (generateResponse st prompt now).1 = c ∧
    (generateResponse st prompt now).2.failureLog =
      st.failureLog ++ [{ provider := A.name, error := m, timestamp := now }] := by
  constructor <;>
    simp [generateResponse, hps, generateResponseGo, hA, hB]

/-- Witness for C7: with `[provA (fails "boom"), provB (succeeds "hello")]`
the controller returns `"hello"` and logs exactly one `provA` failure. -/
theorem generateResponse_failover_witness :
    (generateResponse stAB "q" 0).1 = "hello" ∧
    (generateResponse stAB "q" 0).2.failureLog =
      [{ provider := "groq", error := "boom", timestamp := 0 }] := by
  have h := generateResponse_failover stAB "q" 0 provA provB [] "boom" "hello"
    rfl rfl rfl
  exact ⟨h.1, by simpa [stAB, provA] using h.2⟩

/-- Counterexample to C6 as stated: the controller's `failureLog` array is
*not* bounded to the last 10 entries — `generateResponse` only ever pushes
onto it and nothing trims it.  After six calls on a controller whose two
providers (the realistic Groq + HuggingFace pair) both fail, the log holds 12
entries. -/
theorem failureLog_unbounded_counterexample :
    10 < (callN 6 stBothFail).failureLog.length := by decide

/-- C6 (amended): the in-memory failure log is append-only and unbounded,
but the failure history that `getSystemHealth()` reports (`recentFailures =
failureLog.slice(-10)`) holds at most the last 10 recorded entries: it has
length at most 10 and is a suffix of the full log; and a `generateResponse`
call never shrinks the log. -/
theorem recentFailures_bounded (st : ControllerState) :
    (getSystemHealthRecentFailures st).length ≤ 10 ∧
    List.IsSuffix (getSystemHealthRecentFailures st) st.failureLog ∧
    ∀ (prompt : String) (now : ℚ),
      st.failureLog.length ≤ (generateResponse st prompt now).2.failureLog.length := by
  refine ⟨?_, ?_, ?_⟩
  · simp only [getSystemHealthRecentFailures, List.length_drop]
    omega
  · exact List.drop_suffix _ _
  · intro prompt now
    obtain ⟨ne, hne⟩ := generateResponseGo_log_extends prompt now st.providers st.failureLog
    simp [generateResponse, hne]

/-- C9: the pattern-matching classification stage is deterministic — two
successive `classifyQuery` calls on the same query string, threaded through
the orchestrator's instance state, return the same `queryType`, the same
`requiresData` and the same `conceptualTopic`, and the state is untouched:
`classifyQuery` reads nothing but its argument (no randomness, no clock, no
instance field). -/
theorem classifyQuery_idempotent (st : ControllerState) (q : String) :
    (classifyQueryS st q).1.type = (classifyQueryS (classifyQueryS st q).2 q).1.type ∧
    (classifyQueryS st q).1.requiresData =
      (classifyQueryS (classifyQueryS st q).2 q).1.requiresData ∧
    (classifyQueryS st q).1.conceptualTopic =
      (classifyQueryS (classifyQueryS st q).2 q).1.conceptualTopic ∧
    (classifyQueryS (classifyQueryS st q).2 q).2 = st :=
  ⟨rfl, rfl, rfl, rfl⟩

/-- C10: `ResponseValidator.validateResponse(response, false)` is `false` for
every response string — the `hasRealData` guard rejects before any content
check runs, unconditionally. -/
theorem validateResponse_noRealData (response : String) :
    validateResponse response false = false := rfl

/-- C3: an intent with neither a region nor a time range never reaches the
`fetch` (`retrievePerformsFetch` is the guard in front of the network call),
and `retrieveData` returns the empty `source = "skipped"` result whatever the
network would have answered (`outcome`, `rand` and `now` are irrelevant). -/
theorem retrieveData_knowledge_skips (intent : IntentResult)
    (hr : intent.region = none) (ht : intent.timeRange = none) :
    retrievePerformsFetch intent = false ∧
    ∀ (outcome : FetchOutcome) (rand : ℕ → ℚ) (now : ℚ),
      retrieveData intent outcome rand now = .ok skippedResult ∧
      skippedResult.profiles = [] ∧
      skippedResult.isEmpty = true ∧
      skippedResult.metadata.source = "skipped" := by
  refine ⟨?_, ?_⟩
  · simp [retrievePerformsFetch, hr, ht]
  · intro outcome rand now
    refine ⟨?_, rfl, rfl, rfl⟩
    simp [retrieveData, hr, ht]

/-- Witness for C3: the concrete pure-knowledge intent skips retrieval even
when the network would have timed out. -/
theorem retrieveData_knowledge_skips_witness :
    retrievePerformsFetch intentKnowledgeOnly = false ∧
    retrieveData intentKnowledgeOnly FetchOutcome.timeout rand0 0 = .ok skippedResult := by
  have h := retrieveData_knowledge_skips intentKnowledgeOnly rfl rfl
  exact ⟨h.1, (h.2 FetchOutcome.timeout rand0 0).1⟩

/-- C5 evaluated on the code: on an Argovis timeout, `retrieveData` hands the
*original* `intent.region` / `intent.timeRange` (not the effective defaults in
scope) to `generateFallbackDataForRegion`, which dereferences them without a
guard.  First conjunct — the failing input: an intent with a time range but no
region makes the timeout path throw a `TypeError` instead of returning
synthetic data, contradicting the claim (and the method's own intent: it has
just logged that it is generating fallback data, and its non-timeout error
path does use the defaults).  Second conjunct — when the intent has both a
region and a time range, the timeout path does return the synthetic
`isEmpty = false` result tagged `"Fallback (API timeout)"`, as the claim
describes. -/
theorem retrieveData_timeout_behaviour :
    retrieveData intentTimeOnly FetchOutcome.timeout rand0 0 =
      .error "TypeError: cannot read properties of undefined (region)" ∧
    ∀ (base : IntentResult) (r : Region) (tr : TimeRange) (rand : ℕ → ℚ) (now : ℚ),
      ∃ d, retrieveData { base with region := some r, timeRange := some tr }
              FetchOutcome.timeout rand now = .ok d ∧
           d.isEmpty = false ∧
           d.metadata.source = "Fallback (API timeout)" := by
  refine ⟨rfl, ?_⟩
  intro base r tr rand now
  exact ⟨_, rfl, rfl, rfl⟩

/-- C8: `determineVisualizationType` returns `plot3d` exactly when the mode
is power and more than 10 profiles are present; otherwise it returns `map`
iff some profile has both `lat` and `lon` defined; otherwise `chart`. -/
theorem determineVisualizationType_spec (data : DataResult) (intent : IntentResult) :
    (determineVisualizationType data intent = .plot3d ↔
      intent.mode = .power ∧ 10 < data.profiles.length) ∧
    (¬ (intent.mode = .power ∧ 10 < data.profiles.length) →
      (determineVisualizationType data intent = .map ↔
        ∃ p ∈ data.profiles, p.lat.isSome = true ∧ p.lon.isSome = true)) ∧
    (¬ (intent.mode = .power ∧ 10 < data.profiles.length) →
      (¬ ∃ p ∈ data.profiles, p.lat.isSome = true ∧ p.lon.isSome = true) →
      determineVisualizationType data intent = .chart) := by
  have hcond : (intent.mode == UserMode.power && data.profiles.length > 10) = true ↔
      (intent.mode = .power ∧ 10 < data.profiles.length) := by
    simp [Bool.and_eq_true]
  have hany : data.profiles.any (fun p => p.lat.isSome && p.lon.isSome) = true ↔
      ∃ p ∈ data.profiles, p.lat.isSome = true ∧ p.lon.isSome = true := by
    simp [List.any_eq_true, Bool.and_eq_true]
  by_cases hc : intent.mode = .power ∧ 10 < data.profiles.length
  · have h3d : determineVisualizationType data intent = .plot3d := by
      unfold determineVisualizationType
      rw [if_pos (hcond.mpr hc)]
    exact ⟨by rw [h3d]; simpa using hc, fun h => absurd hc h, fun h => absurd hc h⟩
  · have hnotc : ¬ ((intent.mode == UserMode.power && data.profiles.length > 10) = true) :=
      fun h => hc (hcond.mp h)
    have hstep : determineVisualizationType data intent =
        (if data.profiles.any (fun p => p.lat.isSome && p.lon.isSome) then VizType.map
         else VizType.chart) := by
      unfold determineVisualizationType
      rw [if_neg hnotc]
    by_cases ha : ∃ p ∈ data.profiles, p.lat.isSome = true ∧ p.lon.isSome = true
    · have hmap : determineVisualizationType data intent = .map := by
        rw [hstep, if_pos (hany.mpr ha)]
      exact ⟨⟨fun h => absurd (hmap.symm.trans h) (by decide), fun h => absurd h hc⟩,
             fun _ => ⟨fun _ => ha, fun _ => hmap⟩,
             fun _ h => absurd ha h⟩
    · have hanyf : ¬ (data.profiles.any (fun p => p.lat.isSome && p.lon.isSome) = true) :=
        fun h => ha (hany.mp h)
      have hchart : determineVisualizationType data intent = .chart := by
        rw [hstep, if_neg hanyf]
      exact ⟨⟨fun h => absurd (hchart.symm.trans h) (by decide), fun h => absurd h hc⟩,
             fun _ => ⟨fun h => absurd (hchart.symm.trans h) (by decide),
                       fun h => absurd h ha⟩,
             fun _ _ => hchart⟩

/-- Witness for C8: power mode with 15 lat/lon profiles selects `plot3d`;
explorer mode with the same profiles selects `map`. -/
theorem determineVisualizationType_spec_witness :
    determineVisualizationType data15 intentPower = .plot3d ∧
    determineVisualizationType data15 intent0 = .map := by
  constructor
  · exact (determineVisualizationType_spec data15 intentPower).1.mpr ⟨rfl, by decide⟩
  · exact ((determineVisualizationType_spec data15 intent0).2.1 (by decide)).mpr
      (by decide)

/-- C2: for an intent with both a time range and a region whose initial
retrieval was empty, `handleEmptyData`
(1) first retries with the time range widened by 6 months on each end,
(2) the spatial retry widens the bounding box by 10 degrees on each side
    (clamped to physical bounds, per the spec),
(3) the instrumented run agrees with the source function and
(4) queries temporal expansion first, spatial only if the first retry is
    still empty,
(5)-(6) each step returns the first non-empty result,
(7) and if both retries are empty the synthetic fallback is returned, which
    always has `isEmpty = false` and a `metadata.source` starting with
    `"Fallback ("`. -/
theorem handleEmptyData_expansion_order (orig : IntentResult)
    (fn : IntentResult → DataResult) (rand : ℕ → ℚ) (tr : TimeRange) (reg : Region)
    (htr : orig.timeRange = some tr) (hreg : orig.region = some reg) :
    (expandTemporal orig 6).timeRange =
      some { startM := tr.startM - 6, endM := tr.endM + 6,
             explicit := tr.explicit, defaulted := tr.defaulted } ∧
    (expandSpatial orig 10).region =
      some { bounds := { north := min 90 (reg.bounds.north + 10),
                         south := max (-90) (reg.bounds.south - 10),
                         east := min 180 (reg.bounds.east + 10),
                         west := max (-180) (reg.bounds.west - 10) },
             name := reg.name } ∧
    (handleEmptyDataWithLog orig fn rand).1 = handleEmptyData orig fn rand ∧
    (handleEmptyDataWithLog orig fn rand).2 =
      (if (fn (expandTemporal orig 6)).isEmpty
       then [expandTemporal orig 6, expandSpatial orig 10]
       else [expandTemporal orig 6]) ∧
    ((fn (expandTemporal orig 6)).isEmpty = false →
      handleEmptyData orig fn rand = fn (expandTemporal orig 6)) ∧
    ((fn (expandTemporal orig 6)).isEmpty = true →
      (fn (expandSpatial orig 10)).isEmpty = false →
      handleEmptyData orig fn rand = fn (expandSpatial orig 10)) ∧
    ((fn (expandTemporal orig 6)).isEmpty = true →
      (fn (expandSpatial orig 10)).isEmpty = true →
      handleEmptyData orig fn rand = generateFallbackData orig rand ∧
      (generateFallbackData orig rand).isEmpty = false ∧
      "Fallback (".toList.isPrefixOf (generateFallbackData orig rand).metadata.source.toList = true) := by
  refine ⟨?_, ?_, ?_, ?_, ?_, ?_, ?_⟩
  · rw [expandTemporal, htr]
  · rw [expandSpatial, hreg]
  · cases h1 : (fn (expandTemporal orig 6)).isEmpty <;>
      cases h2 : (fn (expandSpatial orig 10)).isEmpty <;>
      simp [handleEmptyDataWithLog, handleEmptyData, h1, h2]
  · cases h1 : (fn (expandTemporal orig 6)).isEmpty <;>
      cases h2 : (fn (expandSpatial orig 10)).isEmpty <;>
      simp [handleEmptyDataWithLog, h1, h2]
  · intro h1
    simp [handleEmptyData, h1]
  · intro h1 h2
    simp [handleEmptyData, h1, h2]
  · intro h1 h2
    refine ⟨by simp [handleEmptyData, h1, h2], rfl, ?_⟩
    show ("Fallback (".toList.isPrefixOf "Fallback (MCP unavailable)".toList) = true
    decide

/-- Witness for C2: a concrete intent with region and time range, a retrieval
function that always returns empty — both expansions are tried, in temporal
then spatial order, and the synthetic fallback is returned. -/
theorem handleEmptyData_expansion_order_witness :
    (handleEmptyDataWithLog intent0 emptyFn rand0).2 =
      [expandTemporal intent0 6, expandSpatial intent0 10] ∧
    handleEmptyData intent0 emptyFn rand0 = generateFallbackData intent0 rand0 ∧
    (generateFallbackData intent0 rand0).isEmpty = false ∧
    "Fallback (".toList.isPrefixOf (generateFallbackData intent0 rand0).metadata.source.toList = true := by
  obtain ⟨-, -, -, h4, -, -, h7⟩ :=
    handleEmptyData_expansion_order intent0 emptyFn rand0 tr0 reg0 rfl rfl
  obtain ⟨h7a, h7b, h7c⟩ := h7 rfl rfl
  refine ⟨?_, h7a, h7b, h7c⟩
  simpa using h4

/-- A true JavaScript `x >= c` forces a numeric value bounded below. -/
theorem jGe_true {x : JNum} {c : ℚ} (h : jGe x c = true) :
    ∃ q, x = .num q ∧ c ≤ q := by
  cases x with
  | num q => exact ⟨q, rfl, by simpa [jGe] using h⟩
  | nan => simp [jGe] at h
  | undef => simp [jGe] at h

/-- A true JavaScript `x <= c` forces a numeric value bounded above. -/
theorem jLe_true {x : JNum} {c : ℚ} (h : jLe x c = true) :
    ∃ q, x = .num q ∧ q ≤ c := by
  cases x with
  | num q => exact ⟨q, rfl, by simpa [jLe] using h⟩
  | nan => simp [jLe] at h
  | undef => simp [jLe] at h

/-- Counterexample to C4 as stated: a raw record with valid coordinates but a
*missing* depth (no `measurements[0]`, hence no `pres`) is **not** dropped —
`depth = measurements?.[0]?.pres || 0` defaults it to `0` and the record
survives filtering. -/
theorem missingDepth_not_dropped :
    transformProfiles [rawNoPres] =
      [{ id := "r3", lat := some 10, lon := some 20, depth := 0,
         temperature := none, salinity := none, pressure := none, date := 0 }] := by
  decide

/-- C4 (amended): every record surviving `retrieveData`'s filter satisfies
`-90 ≤ lat ≤ 90`, `-180 ≤ lon ≤ 180` and `depth ≥ 0`; records with missing
(absent or `NaN`) or out-of-range latitude or longitude are dropped, as are
records whose pressure (the depth proxy) is negative; but a record with a
*missing* pressure is kept with its depth defaulted to `0`; and `isEmpty` is
true exactly when zero valid records survive. -/
theorem retrieveData_filter_invariants :
    (∀ (raws : List RawProfile), ∀ p ∈ transformProfiles raws,
      (∃ la, p.lat = some la ∧ -90 ≤ la ∧ la ≤ 90) ∧
      (∃ lo, p.lon = some lo ∧ -180 ≤ lo ∧ lo ≤ 180) ∧
      0 ≤ p.depth) ∧
    (∀ raw : RawProfile,
      (raw.lat = .undef ∨ raw.lat = .nan ∨
        (∃ q, raw.lat = .num q ∧ (q < -90 ∨ 90 < q))) →
      isValidProfile (mapRawProfile raw) = false) ∧
    (∀ raw : RawProfile,
      (raw.lon = .undef ∨ raw.lon = .nan ∨
        (∃ q, raw.lon = .num q ∧ (q < -180 ∨ 180 < q))) →
      isValidProfile (mapRawProfile raw) = false) ∧
    (∀ raw : RawProfile, ∀ q : ℚ, raw.pres = .num q → q < 0 →
      isValidProfile (mapRawProfile raw) = false) ∧
    (∀ raw : RawProfile, jTruthy raw.pres = false →
      (mapRawProfile raw).depth = .num 0) ∧
    (∀ (intent : IntentResult) (raws : List RawProfile) (rand : ℕ → ℚ) (now : ℚ)
        (d : DataResult),
      retrieveData intent (.ok raws) rand now = .ok d →
      (d.isEmpty = true ↔ d.profiles = [])) := by
  refine ⟨?_, ?_, ?_, ?_, ?_, ?_⟩
  · intro raws p hp
    obtain ⟨mp, hmp, rfl⟩ := List.mem_map.mp hp
    have hv := (List.mem_filter.mp hmp).2
    have hlatGe : jGe mp.lat (-90) = true := by
      simp only [isValidProfile, Bool.and_eq_true] at hv; tauto
    have hlatLe : jLe mp.lat 90 = true := by
      simp only [isValidProfile, Bool.and_eq_true] at hv; tauto
    have hlonGe : jGe mp.lon (-180) = true := by
      simp only [isValidProfile, Bool.and_eq_true] at hv; tauto
    have hlonLe : jLe mp.lon 180 = true := by
      simp only [isValidProfile, Bool.and_eq_true] at hv; tauto
    have hdepGe : jGe mp.depth 0 = true := by
      simp only [isValidProfile, Bool.and_eq_true] at hv; tauto
    obtain ⟨la, hla, hla1⟩ := jGe_true hlatGe
    obtain ⟨la2, hla2, hla3⟩ := jLe_true hlatLe
    obtain rfl : la = la2 := by
      have := hla.symm.trans hla2
      injection this
    obtain ⟨lo, hlo, hlo1⟩ := jGe_true hlonGe
    obtain ⟨lo2, hlo2, hlo3⟩ := jLe_true hlonLe
    obtain rfl : lo = lo2 := by
      have := hlo.symm.trans hlo2
      injection this
    obtain ⟨dq, hdq, hdq1⟩ := jGe_true hdepGe
    refine ⟨⟨la, ?_, hla1, hla3⟩, ⟨lo, ?_, hlo1, hlo3⟩, ?_⟩
    · simp [toProfile, hla, jToOpt]
    · simp [toProfile, hlo, jToOpt]
    · simpa [toProfile, hdq, jToOpt] using hdq1
  · rintro raw (h | h | ⟨q, hq, hout⟩)
    · simp [isValidProfile, mapRawProfile, h, jTruthy]
    · simp [isValidProfile, mapRawProfile, h, jTruthy]
    · by_contra hval
      rw [Bool.not_eq_false] at hval
      have hGe : jGe (mapRawProfile raw).lat (-90) = true := by
        simp only [isValidProfile, Bool.and_eq_true] at hval; tauto
      have hLe : jLe (mapRawProfile raw).lat 90 = true := by
        simp only [isValidProfile, Bool.and_eq_true] at hval; tauto
      have hlat : (mapRawProfile raw).lat = raw.lat := rfl
      rw [hlat, hq] at hGe hLe
      simp only [jGe, decide_eq_true_eq] at hGe
      simp only [jLe, decide_eq_true_eq] at hLe
      rcases hout with h3 | h3 <;> linarith
  · rintro raw (h | h | ⟨q, hq, hout⟩)
    · simp [isValidProfile, mapRawProfile, h, jTruthy]
    · simp [isValidProfile, mapRawProfile, h, jTruthy]
    · by_contra hval
      rw [Bool.not_eq_false] at hval
      have hGe : jGe (mapRawProfile raw).lon (-180) = true := by
        simp only [isValidProfile, Bool.and_eq_true] at hval; tauto
      have hLe : jLe (mapRawProfile raw).lon 180 = true := by
        simp only [isValidProfile, Bool.and_eq_true] at hval; tauto
      have hlon : (mapRawProfile raw).lon = raw.lon := rfl
      rw [hlon, hq] at hGe hLe
      simp only [jGe, decide_eq_true_eq] at hGe
      simp only [jLe, decide_eq_true_eq] at hLe
      rcases hout with h3 | h3 <;> linarith
  · intro raw q hq hneg
    by_contra hval
    rw [Bool.not_eq_false] at hval
    have hGe : jGe (mapRawProfile raw).depth 0 = true := by
      simp only [isValidProfile, Bool.and_eq_true] at hval; tauto
    have hne : (q != 0) = true := by simp [hneg.ne]
    have hdep : (mapRawProfile raw).depth = .num q := by
      simp [mapRawProfile, hq, jOrZero, jTruthy, hne]
    rw [hdep] at hGe
    simp only [jGe, decide_eq_true_eq] at hGe
    linarith
  · intro raw h
    simp [mapRawProfile, jOrZero, h]
  · intro intent raws rand now d hd
    rcases hreg : intent.region with _ | r <;>
      rcases htr : intent.timeRange with _ | tr <;>
      simp only [retrieveData, hreg, htr] at hd
    · obtain rfl : skippedResult = d := Except.ok.inj hd
      simp [skippedResult]
    all_goals
      obtain rfl := Except.ok.inj hd
      simp [List.length_eq_zero]

/-- Witness for the amended C4, at concrete records: a surviving record is in
range; an out-of-range latitude is dropped; a negative pressure is dropped; a
missing pressure defaults the depth to `0`; and the skip result's `isEmpty`
matches its empty profile list. -/
theorem retrieveData_filter_invariants_witness :
    ((∃ la, pGood.lat = some la ∧ -90 ≤ la ∧ la ≤ 90) ∧
     (∃ lo, pGood.lon = some lo ∧ -180 ≤ lo ∧ lo ≤ 180) ∧
     0 ≤ pGood.depth) ∧
    isValidProfile (mapRawProfile rawBadLat) = false ∧
    isValidProfile (mapRawProfile rawNegPres) = false ∧
    (mapRawProfile rawNoPres).depth = .num 0 ∧
    (skippedResult.isEmpty = true ↔ skippedResult.profiles = []) := by
  obtain ⟨h1, h2, h3, h4, h5, h6⟩ := retrieveData_filter_invariants
  exact ⟨h1 [rawGood] pGood (by decide),
         h2 rawBadLat (Or.inr (Or.inr ⟨100, rfl, Or.inr (by norm_num)⟩)),
         h4 rawNegPres (-5) rfl (by norm_num),
         h5 rawNoPres rfl,
         h6 intentKnowledgeOnly [] rand0 0 skippedResult rfl⟩

end Ocean
